import Mathlib

/-!
Verification of the trafficManagement control-and-optimization core.

This file gives a shallow embedding in Lean 4 of the parts of the
repository that the checked claims are about:

* `backend/src/geometric_database.py` — `GeometricDatabase` (HCM factor
  tables, saturation flow, storage capacity, config loading);
* `backend/src/webster_optimizer.py` — `WebsterOptimizer.optimize`
  (Webster cycle computation, green distribution, safety red time);
* `backend/src/spillback_detector.py` — `SpillbackDetector.analyze`
  (occupancy classification, recommendations);
* `simulation/sumo_controller.py` — `StabilizedAdaptiveController`
  (EMA smoothing, green rate limiting, degradation detection and
  reversion to the last stable timing).

Python floats are modelled as rationals (`ℚ`), Python ints as `ℤ`
(counters as `ℕ`), dicts as insertion-ordered association lists, and
fallible operations as `Except`/`Option`.  Side effects that do not feed
back into the modelled state (printing warnings/progress, wall-clock
timestamps, the SUMO/traci socket) are elided; calls to the timing sink
(`set_phase_duration`) are modelled as an explicit command list returned
by each operation.
-/

namespace TM

/-- Lookup in an insertion-ordered association list (Python `dict.get`). -/
def alLookup {α β : Type} [DecidableEq α] : List (α × β) → α → Option β
  | [], _ => none
  | p :: rest, k => if p.1 = k then some p.2 else alLookup rest k

/-- Update/insert in an insertion-ordered association list
(Python `dict[k] = v`: replaces in place, else appends). -/
def alSet {α β : Type} [DecidableEq α] : List (α × β) → α → β → List (α × β)
  | [], k, v => [(k, v)]
  | p :: rest, k, v => if p.1 = k then (k, v) :: rest else p :: alSet rest k v

/-- Python `round` on a float: round half to even (banker's rounding). -/
def pyRound (q : ℚ) : ℤ :=
  if q - ⌊q⌋ < 1/2 then ⌊q⌋
  else if 1/2 < q - ⌊q⌋ then ⌊q⌋ + 1
  else if ⌊q⌋ % 2 = 0 then ⌊q⌋ else ⌊q⌋ + 1

/-- Python `int(...)` on a float: truncation toward zero. -/
def pyInt (q : ℚ) : ℤ :=
  if 0 ≤ q then ⌊q⌋ else ⌈q⌉

/-- Python `round(x, 3)` (display rounding to 3 decimals). -/
def round3 (q : ℚ) : ℚ := (pyRound (q * 1000) : ℚ) / 1000

/-- Python `round(x, 1)` (display rounding to 1 decimal). -/
def round1 (q : ℚ) : ℚ := (pyRound (q * 10) : ℚ) / 10

/-! ## GeometricDatabase (backend/src/geometric_database.py) -/

/-- Module constant `BASE_SATURATION_FLOW = 1900` (PCU/hr/lane). -/
def BASE_SATURATION_FLOW : ℚ := 1900

/-- Contents of the `"hcm_parameters"` section of the context config.
Each field is optional, mirroring `dict.get` with a default at use site. -/
structure HcmParameters where
  baseSaturationFlow : Option ℚ := none
  minCycleLengthS : Option ℤ := none
  maxCycleLengthS : Option ℤ := none
  yellowTimeS : Option ℤ := none
  allRedTimeS : Option ℤ := none
  lostTimePerPhaseS : Option ℤ := none
  deriving DecidableEq

/-- Contents of the `"spillback_prevention"` section of the context config. -/
structure SpillbackPrevention where
  warningOccupancyThreshold : Option ℚ := none
  criticalOccupancyThreshold : Option ℚ := none
  avgVehicleLengthM : Option ℚ := none
  avgGapM : Option ℚ := none
  deriving DecidableEq

/-- The city context configuration (`vadodara_context.json`), restricted to
the sections the modelled components read. -/
structure Context where
  hcmParameters : Option HcmParameters := none
  spillbackPrevention : Option SpillbackPrevention := none
  deriving DecidableEq

/-- `context.get("hcm_parameters", {}).get("base_saturation_flow", BASE_SATURATION_FLOW)` -/
def Context.baseSaturationFlow (c : Context) : ℚ :=
  ((c.hcmParameters.bind HcmParameters.baseSaturationFlow).getD BASE_SATURATION_FLOW)

/-- `context.get("hcm_parameters", {}).get("min_cycle_length_s", 30)` -/
def Context.minCycleLengthS (c : Context) : ℤ :=
  ((c.hcmParameters.bind HcmParameters.minCycleLengthS).getD 30)

/-- `context.get("hcm_parameters", {}).get("max_cycle_length_s", 120)` -/
def Context.maxCycleLengthS (c : Context) : ℤ :=
  ((c.hcmParameters.bind HcmParameters.maxCycleLengthS).getD 120)

/-- `context.get("hcm_parameters", {}).get("yellow_time_s", 3)` -/
def Context.yellowTimeS (c : Context) : ℤ :=
  ((c.hcmParameters.bind HcmParameters.yellowTimeS).getD 3)

/-- `context.get("hcm_parameters", {}).get("all_red_time_s", 2)` -/
def Context.allRedTimeS (c : Context) : ℤ :=
  ((c.hcmParameters.bind HcmParameters.allRedTimeS).getD 2)

/-- `context.get("hcm_parameters", {}).get("lost_time_per_phase_s", 4)` -/
def Context.lostTimePerPhaseS (c : Context) : ℤ :=
  ((c.hcmParameters.bind HcmParameters.lostTimePerPhaseS).getD 4)

/-- `context.get("spillback_prevention", {}).get("warning_occupancy_threshold", 0.70)` -/
def Context.warningThreshold (c : Context) : ℚ :=
  ((c.spillbackPrevention.bind SpillbackPrevention.warningOccupancyThreshold).getD (70/100))

/-- `context.get("spillback_prevention", {}).get("critical_occupancy_threshold", 0.85)` -/
def Context.criticalThreshold (c : Context) : ℚ :=
  ((c.spillbackPrevention.bind SpillbackPrevention.criticalOccupancyThreshold).getD (85/100))

/-- `context.get("spillback_prevention", {}).get("avg_vehicle_length_m", 5.0)` -/
def Context.avgVehicleLengthM (c : Context) : ℚ :=
  ((c.spillbackPrevention.bind SpillbackPrevention.avgVehicleLengthM).getD 5)

/-- `context.get("spillback_prevention", {}).get("avg_gap_m", 2.0)` -/
def Context.avgGapM (c : Context) : ℚ :=
  ((c.spillbackPrevention.bind SpillbackPrevention.avgGapM).getD 2)

/-- `ApproachGeometry` dataclass: geometry of one approach, with the derived
factor fields defaulted as in the Python dataclass and populated by
`calculateFactors`. -/
structure ApproachGeometry where
  direction : String
  lanes : ℤ
  widthM : ℚ
  turnRadiusM : ℚ
  storageLengthM : ℚ
  heavyVehiclePct : ℚ
  fw : ℚ := 1
  fHV : ℚ := 1
  fT : ℚ := 1
  saturationFlow : ℚ := 0
  deriving DecidableEq

/-- `Junction` dataclass.  The pass-through baseline `phases` list (raw JSON
dicts, used only for API display and `compare_with_fixed`) is elided. -/
structure Junction where
  id : String
  name : String
  lat : ℚ
  lon : ℚ
  approaches : List (String × ApproachGeometry)
  currentCycleLength : ℤ
  deriving DecidableEq

/-- `GeometricDatabase._lane_width_factor` (HCM Exhibit 19-13 step table). -/
def laneWidthFactor (widthM : ℚ) : ℚ :=
  if widthM ≥ 3.65 then 1.00
  else if widthM ≥ 3.35 then 0.96
  else if widthM ≥ 3.05 then 0.91
  else if widthM ≥ 2.75 then 0.86
  else 0.81

/-- `GeometricDatabase._heavy_vehicle_factor`: `1 / (1 + p*(2.5 - 1))`. -/
def heavyVehicleFactor (heavyPct : ℚ) : ℚ :=
  1 / (1 + heavyPct * (2.5 - 1))

/-- `GeometricDatabase._turn_radius_factor` step table. -/
def turnRadiusFactor (radiusM : ℚ) : ℚ :=
  if radiusM ≥ 15 then 0.95
  else if radiusM ≥ 12 then 0.92
  else if radiusM ≥ 10 then 0.90
  else if radiusM ≥ 8 then 0.87
  else if radiusM ≥ 6 then 0.85
  else 0.80

/-- `GeometricDatabase._calculate_factors`: populate the derived factor
fields and `saturation_flow = base * lanes * fw * fHV * fT`. -/
def calculateFactors (base : ℚ) (a : ApproachGeometry) : ApproachGeometry :=
  let fw := laneWidthFactor a.widthM
  let fHV := heavyVehicleFactor a.heavyVehiclePct
  let fT := turnRadiusFactor a.turnRadiusM
  { a with fw := fw, fHV := fHV, fT := fT,
           saturationFlow := base * a.lanes * fw * fHV * fT }

/-- The loaded geometric database: junctions keyed by id, plus the context. -/
structure GeometricDatabase where
  junctions : List (String × Junction)
  context : Context
  deriving DecidableEq

/-- `GeometricDatabase.get_junction`. -/
def getJunction (db : GeometricDatabase) (junctionId : String) : Option Junction :=
  alLookup db.junctions junctionId

/-- Lookup of a specific approach (`junctions.get(jid)` then
`direction in junction.approaches`). -/
def lookupApproach (db : GeometricDatabase) (junctionId direction : String) :
    Option ApproachGeometry :=
  match getJunction db junctionId with
  | some j => alLookup j.approaches direction
  | none => none

/-- `GeometricDatabase.get_approach_saturation_flow`: derived value when the
junction and direction are known, else the module default `1900`. -/
def getApproachSaturationFlow (db : GeometricDatabase)
    (junctionId direction : String) : ℚ :=
  match lookupApproach db junctionId direction with
  | some a => a.saturationFlow
  | none => BASE_SATURATION_FLOW

/-- `GeometricDatabase.get_storage_capacity`:
`max(int((storage_length_m * lanes) / (avg_vehicle_length + avg_gap)), 1)`
for a known approach, `20` for an unknown junction or direction. -/
def getStorageCapacity (db : GeometricDatabase)
    (junctionId direction : String) : ℤ :=
  match lookupApproach db junctionId direction with
  | none => 20
  | some a =>
    max (pyInt ((a.storageLengthM * a.lanes) /
      (db.context.avgVehicleLengthM + db.context.avgGapM))) 1

/-! ## Config loading (GeometricDatabase.__init__ / _load_context / _load_junctions) -/

/-- Outcome of opening-and-JSON-parsing one configuration file:
the file is missing (`FileNotFoundError`), present but not valid JSON
(`json.JSONDecodeError`), or parsed to typed content. -/
inductive FileLoad (α : Type) where
  | notFound : FileLoad α
  | parseError : FileLoad α
  | ok : α → FileLoad α
  deriving DecidableEq

/-- The context `_load_context` falls back to on a missing or invalid file:
`{"hcm_parameters": {"base_saturation_flow": BASE_SATURATION_FLOW}}`. -/
def defaultContext : Context :=
  { hcmParameters := some { baseSaturationFlow := some BASE_SATURATION_FLOW },
    spillbackPrevention := none }

/-- `GeometricDatabase._load_context`: catches both `FileNotFoundError` and
`json.JSONDecodeError`, printing a warning and substituting the default
context; never fails.  (The printed warning is elided.) -/
def loadContext : FileLoad Context → Context
  | .ok c => c
  | .notFound => defaultContext
  | .parseError => defaultContext

/-- Raw `"current_timing"` section of one junction record. -/
structure RawTiming where
  cycleLengthS : Option ℤ := none
  deriving DecidableEq

/-- One raw junction record from `junction_config.json`. -/
structure RawJunction where
  id : String
  name : String
  lat : ℚ
  lon : ℚ
  approaches : List (String × ApproachGeometry)
  currentTiming : Option RawTiming := none
  deriving DecidableEq

/-- Parsed `junction_config.json` (`data.get("junctions", {})`). -/
structure JunctionConfig where
  junctions : List RawJunction
  deriving DecidableEq

/-- Build one `Junction` from its raw record: each approach gets its HCM
factors computed against the loaded context's base saturation flow, and the
baseline cycle length defaults to 120. -/
def buildJunction (ctx : Context) (r : RawJunction) : Junction :=
  { id := r.id
    name := r.name
    lat := r.lat
    lon := r.lon
    approaches := r.approaches.map
      (fun p => (p.1, calculateFactors ctx.baseSaturationFlow { p.2 with direction := p.1 }))
    currentCycleLength := ((r.currentTiming.bind RawTiming.cycleLengthS).getD 120) }

/-- `GeometricDatabase._load_junctions`: a missing file re-raises
`FileNotFoundError` and invalid JSON raises `ValueError` — both propagate to
the caller; parsed content is built into the junction map. -/
def loadJunctions (ctx : Context) :
    FileLoad JunctionConfig → Except String (List (String × Junction))
  | .notFound =>
    .error "CRITICAL: Junction config not found. This file is required for system operation."
  | .parseError =>
    .error "CRITICAL: Invalid JSON in junction config"
  | .ok data =>
    .ok (data.junctions.map (fun r => (r.id, buildJunction ctx r)))

/-- `GeometricDatabase.__init__`: loads the context first (never fails),
then the junctions (failure propagates). -/
def GeometricDatabase.init (junctionFile : FileLoad JunctionConfig)
    (contextFile : FileLoad Context) : Except String GeometricDatabase :=
  let ctx := loadContext contextFile
  match loadJunctions ctx junctionFile with
  | .error e => .error e
  | .ok js => .ok { junctions := js, context := ctx }

/-! ## WebsterOptimizer (backend/src/webster_optimizer.py) -/

/-- Class constant `MIN_RED_TIME = 5` — the minimum safe red time.  Unlike
the cycle/yellow constants it is not overridden from the context in
`__init__`. -/
def MIN_RED_TIME : ℤ := 5

/-- `PhaseConfig` dataclass: a signal phase with its participating
directions and green-time bounds. -/
structure PhaseConfig where
  name : String
  approaches : List String
  minGreenS : ℤ := 10
  maxGreenS : ℤ := 60
  deriving DecidableEq

/-- One realized phase of the optimizer output (an entry of the `phases`
list: `{name, green_s, yellow_s, red_s, flow_ratio}`). -/
structure PhaseOut where
  name : String
  greenS : ℤ
  yellowS : ℤ
  redS : ℤ
  flowRatioVal : ℚ
  deriving DecidableEq

/-- `SignalTiming` dataclass (optimizer output). -/
structure SignalTiming where
  cycleLength : ℤ
  phases : List PhaseOut
  totalLostTime : ℤ
  sumFlowRatios : ℚ
  isOversaturated : Bool
  deriving DecidableEq

/-- `WebsterOptimizer` with the timing constraints its `__init__` loads
from the context (defaults 30/120/3/2/4). -/
structure WebsterOptimizer where
  geoDb : GeometricDatabase
  minCycle : ℤ := 30
  maxCycle : ℤ := 120
  yellowTime : ℤ := 3
  allRedTime : ℤ := 2
  lostTimePerPhase : ℤ := 4
  deriving DecidableEq

/-- `WebsterOptimizer.__init__(geo_db)`. -/
def WebsterOptimizer.init (db : GeometricDatabase) : WebsterOptimizer :=
  { geoDb := db
    minCycle := db.context.minCycleLengthS
    maxCycle := db.context.maxCycleLengthS
    yellowTime := db.context.yellowTimeS
    allRedTime := db.context.allRedTimeS
    lostTimePerPhase := db.context.lostTimePerPhaseS }

/-- `WebsterOptimizer._calculate_phase_flow_ratio`:
`y = max(flow / saturation)` over the phase's approaches (ratios with
non-positive saturation are skipped), starting from 0. -/
def calcPhaseFlowRatio (db : GeometricDatabase) (junctionId : String)
    (phase : PhaseConfig) (liveFlows : List (String × ℚ)) : ℚ :=
  phase.approaches.foldl
    (fun maxRat direction =>
      let flow := (alLookup liveFlows direction).getD 0
      let saturation := getApproachSaturationFlow db junctionId direction
      if saturation > 0 then max maxRat (flow / saturation) else maxRat) 0

/-- `WebsterOptimizer._default_phase_config`: NS/EW split of whatever
directions the junction actually has, with bounds 15–60 s. -/
def defaultPhaseConfig (junction : Junction) : List PhaseConfig :=
  [ { name := "NS",
      approaches := (junction.approaches.map Prod.fst).filter
        (fun d => d == "north" || d == "south"),
      minGreenS := 15, maxGreenS := 60 },
    { name := "EW",
      approaches := (junction.approaches.map Prod.fst).filter
        (fun d => d == "east" || d == "west"),
      minGreenS := 15, maxGreenS := 60 } ]

/-- The proportional green share of one phase before clamping:
`(y_i / Y) * (C_opt - L)`, or an equal split when `Y == 0`. -/
def proportionalGreen (cOpt lostTime : ℤ) (phaseCount : ℕ) (capY y : ℚ) : ℚ :=
  if capY > 0 then (y / capY) * ((cOpt - lostTime : ℤ) : ℚ)
  else ((cOpt - lostTime : ℤ) : ℚ) / (phaseCount : ℚ)

/-- `green = int(round(max(min_green, min(max_green, green))))`. -/
def clampedGreen (pc : PhaseConfig) (green : ℚ) : ℤ :=
  pyRound (max (pc.minGreenS : ℚ) (min (pc.maxGreenS : ℚ) green))

/-- Per-phase realization inside `optimize`: proportional green, clamping
and rounding, red time, and the minimum-safe-red adjustment. -/
def buildPhase (opt : WebsterOptimizer) (cOpt lostTime : ℤ) (phaseCount : ℕ)
    (capY : ℚ) (pc : PhaseConfig) (y : ℚ) : PhaseOut :=
  let green1 : ℤ := clampedGreen pc (proportionalGreen cOpt lostTime phaseCount capY y)
  let red : ℤ := cOpt - green1 - opt.yellowTime
  let green2 : ℤ :=
    if red < MIN_RED_TIME then cOpt - MIN_RED_TIME - opt.yellowTime else green1
  let red2 : ℤ := if red < MIN_RED_TIME then MIN_RED_TIME else red
  { name := pc.name, greenS := max 0 green2, yellowS := opt.yellowTime,
    redS := max MIN_RED_TIME red2, flowRatioVal := round3 y }

/-- `WebsterOptimizer.optimize(junction_id, live_flows, phase_config)`. -/
def WebsterOptimizer.optimize (opt : WebsterOptimizer) (junctionId : String)
    (liveFlows : List (String × ℚ)) (phaseConfig : Option (List PhaseConfig)) :
    Except String SignalTiming :=
  match getJunction opt.geoDb junctionId with
  | none => .error ("Junction not found: " ++ junctionId)
  | some junction =>
    let pcs := phaseConfig.getD (defaultPhaseConfig junction)
    let flowRatios := pcs.map (fun pc => calcPhaseFlowRatio opt.geoDb junctionId pc liveFlows)
    let sumY := flowRatios.sum
    let isOversaturated := decide (sumY ≥ 0.90)
    let capY : ℚ := if sumY ≥ 1 then 0.95 else sumY
    let lostTime : ℤ := (pcs.length : ℤ) * opt.lostTimePerPhase
    let cUnclamped : ℚ := (1.5 * (lostTime : ℚ) + 5) / (1 - capY)
    let cOpt : ℤ := pyRound (max (opt.minCycle : ℚ) (min (opt.maxCycle : ℚ) cUnclamped))
    let phases := (pcs.zip flowRatios).map
      (fun p => buildPhase opt cOpt lostTime pcs.length capY p.1 p.2)
    .ok { cycleLength := cOpt, phases := phases, totalLostTime := lostTime,
          sumFlowRatios := capY, isOversaturated := isOversaturated }

/-- The sum `Y` of the phases' critical flow ratios as computed from the
inputs, before the oversaturation cap (`Y = sum(flow_ratios)`). -/
def rawSumFlowRatios (opt : WebsterOptimizer) (junctionId : String)
    (liveFlows : List (String × ℚ)) (phaseConfig : Option (List PhaseConfig))
    (junction : Junction) : ℚ :=
  ((phaseConfig.getD (defaultPhaseConfig junction)).map
    (fun pc => calcPhaseFlowRatio opt.geoDb junctionId pc liveFlows)).sum

/-! ## SpillbackDetector (backend/src/spillback_detector.py) -/

/-- `SpillbackStatus` enum, with severity values 0–3. -/
inductive SpillbackStatus where
  | OK
  | WARNING
  | CRITICAL
  | SPILLBACK
  deriving DecidableEq

/-- The enum member's numeric `.value` used for worst-status comparison. -/
def SpillbackStatus.value : SpillbackStatus → ℕ
  | .OK => 0
  | .WARNING => 1
  | .CRITICAL => 2
  | .SPILLBACK => 3

/-- `ApproachStatus` dataclass. -/
structure ApproachStatus where
  direction : String
  queueLength : ℤ
  storageCapacity : ℤ
  occupancyPct : ℚ
  status : SpillbackStatus
  timeToSpillbackS : Option ℚ
  deriving DecidableEq

/-- `JunctionStatus` dataclass; the wall-clock `timestamp` field and the
history side channel (used only for trend analysis) are elided. -/
structure JunctionStatus where
  junctionId : String
  approaches : List (String × ApproachStatus)
  overallStatus : SpillbackStatus
  recommendedAction : String
  deriving DecidableEq

/-- `SpillbackDetector` with its occupancy thresholds as loaded in
`__init__` from the context (defaults 0.70 / 0.85). -/
structure SpillbackDetector where
  geoDb : GeometricDatabase
  warningThreshold : ℚ := 70/100
  criticalThreshold : ℚ := 85/100
  deriving DecidableEq

/-- `SpillbackDetector.__init__(geo_db)`. -/
def SpillbackDetector.init (db : GeometricDatabase) : SpillbackDetector :=
  { geoDb := db
    warningThreshold := db.context.warningThreshold
    criticalThreshold := db.context.criticalThreshold }

/-- Per-approach body of the loop in `SpillbackDetector.analyze`:
occupancy, risk level, and the optional time-to-spillback estimate. -/
def analyzeApproach (det : SpillbackDetector) (junctionId : String)
    (inflowRates : Option (List (String × ℚ))) (direction : String)
    (queue : ℤ) : ApproachStatus :=
  let capacity := getStorageCapacity det.geoDb junctionId direction
  let occupancy : ℚ := if capacity > 0 then (queue : ℚ) / (capacity : ℚ) else 1
  let status :=
    if occupancy ≥ 1 then SpillbackStatus.SPILLBACK
    else if occupancy ≥ det.criticalThreshold then SpillbackStatus.CRITICAL
    else if occupancy ≥ det.warningThreshold then SpillbackStatus.WARNING
    else SpillbackStatus.OK
  let tts : Option ℚ :=
    match inflowRates with
    | none => none
    | some rates =>
      if rates = [] then none
      else
        match alLookup rates direction with
        | none => none
        | some inflow =>
          if status ≠ SpillbackStatus.SPILLBACK ∧ inflow > 0 then
            some (((capacity - queue : ℤ) : ℚ) / inflow * 3600)
          else none
  { direction := direction, queueLength := queue, storageCapacity := capacity,
    occupancyPct := round1 (occupancy * 100), status := status,
    timeToSpillbackS := tts }

/-- `SpillbackDetector._generate_recommendation`. -/
def generateRecommendation (approaches : List (String × ApproachStatus))
    (overall : SpillbackStatus) : String :=
  if overall = SpillbackStatus.OK then "No action needed"
  else
    let criticalDirs := (approaches.filter
      (fun p => p.2.status == SpillbackStatus.CRITICAL)).map Prod.fst
    let spillbackDirs := (approaches.filter
      (fun p => p.2.status == SpillbackStatus.SPILLBACK)).map Prod.fst
    if spillbackDirs ≠ [] then
      "URGENT: Extend green for " ++ String.intercalate ", " spillbackDirs ++
        ". Consider blocking upstream."
    else if criticalDirs ≠ [] then
      "Extend green for " ++ String.intercalate ", " criticalDirs ++ " by 10-15s"
    else "Monitor closely, consider extending green"

/-- `SpillbackDetector.analyze(junction_id, queue_lengths, inflow_rates)`. -/
def SpillbackDetector.analyze (det : SpillbackDetector) (junctionId : String)
    (queueLengths : List (String × ℤ))
    (inflowRates : Option (List (String × ℚ))) : Except String JunctionStatus :=
  match getJunction det.geoDb junctionId with
  | none => .error ("Junction not found: " ++ junctionId)
  | some _ =>
    let approachStatuses := queueLengths.map
      (fun p => (p.1, analyzeApproach det junctionId inflowRates p.1 p.2))
    let worstStatus := approachStatuses.foldl
      (fun worst p => if worst.value < p.2.status.value then p.2.status else worst)
      SpillbackStatus.OK
    let action := generateRecommendation approachStatuses worstStatus
    .ok { junctionId := junctionId, approaches := approachStatuses,
          overallStatus := worstStatus, recommendedAction := action }

/-! ## StabilizedAdaptiveController (simulation/sumo_controller.py) -/

/-- `StabilizedAdaptiveController.DEFAULT_CONFIG`, possibly overridden by a
user-supplied config dict at construction. -/
structure StabilityConfig where
  updateIntervalS : ℚ := 45
  minGreenS : ℤ := 15
  maxGreenS : ℤ := 60
  maxGreenChangeS : ℤ := 10
  smoothingAlpha : ℚ := 3/10
  stabilityWindow : ℕ := 3
  performanceThreshold : ℚ := 11/10
  deriving DecidableEq

/-- The detector reading for one approach from
`SUMOTrafficDetector.get_junction_state`: total PCU in the detection zone
and physical queue length in metres. -/
structure ApproachState where
  totalPcu : ℚ
  queueLengthM : ℚ
  deriving DecidableEq

/-- Input of one junction's optimization in a control cycle: the junction's
configured id and the live per-approach detector states. -/
structure JunctionInput where
  id : String
  approaches : List (String × ApproachState)
  deriving DecidableEq

/-- The controller's mutable state: `_flow_history`, `_current_greens`,
`_stable_timings`, `_performance_history`, `_failure_count`, and the
`metrics` counters touched by the modelled code paths. -/
structure ControllerState where
  flowHistory : List (String × List (String × ℚ)) := []
  currentGreens : List (String × List (ℕ × ℤ)) := []
  stableTimings : List (String × List (ℕ × ℤ)) := []
  perfHistory : List ℚ := []
  failureCount : ℕ := 0
  optimizationCount : ℕ := 0
  spillbackEvents : ℕ := 0
  reversions : ℕ := 0
  rateLimitedChanges : ℕ := 0
  deriving DecidableEq

/-- `StabilizedAdaptiveController._should_revert`.  Python mutates
`self._failure_count`; modelled by returning the revert decision together
with the updated state.  With no performance history it returns `False`
without touching the counter; otherwise a degraded delay (current >
previous × threshold) increments the counter and reverting is signalled
once the counter reaches the stability window, while a non-degraded delay
resets the counter to zero. -/
def shouldRevert (cfg : StabilityConfig) (s : ControllerState)
    (currentDelay : ℚ) : Bool × ControllerState :=
  match s.perfHistory.getLast? with
  | none => (false, s)
  | some prevDelay =>
    if currentDelay > prevDelay * cfg.performanceThreshold then
      if cfg.stabilityWindow ≤ s.failureCount + 1 then
        (true, { s with failureCount := s.failureCount + 1 })
      else
        (false, { s with failureCount := s.failureCount + 1 })
    else (false, { s with failureCount := 0 })

/-- The `set_phase_duration` calls issued by `_revert_to_stable`: for each
junction in the stable snapshot, the snapshot green of the phase currently
active at that junction. -/
def revertCommands (stable : List (String × List (ℕ × ℤ)))
    (currentPhase : String → Option ℕ) : List (String × ℤ) :=
  (stable.map (fun jt => jt.2.filterMap
    (fun pg => if currentPhase jt.1 = some pg.1 then some (jt.1, pg.2) else none))).flatten

/-- `StabilizedAdaptiveController._revert_to_stable`: with no stable
snapshot it returns immediately (no command, no counter change); otherwise
it reapplies the snapshot, increments `reversions` and resets the failure
counter.  (The per-junction `try/except` around the sink calls is elided:
the sink is modelled as total.) -/
def revertToStable (s : ControllerState) (currentPhase : String → Option ℕ) :
    ControllerState × List (String × ℤ) :=
  if s.stableTimings = [] then (s, [])
  else
    ({ s with reversions := s.reversions + 1, failureCount := 0 },
     revertCommands s.stableTimings currentPhase)

/-- Green bounds from `_optimize_junction_stable`:
`max(min_green_s, min(max_green_s, target_green))`. -/
def boundGreen (cfg : StabilityConfig) (targetGreen : ℤ) : ℤ :=
  max cfg.minGreenS (min cfg.maxGreenS targetGreen)

/-- Rate limiting from `_optimize_junction_stable`: the tracked current
green defaults to the already-bounded target on the first optimization of a
phase (`dict.get(phase_idx, target_green)`); a delta beyond
`max_green_change_s` is cut to exactly that amount in the delta's
direction.  Returns the applied green and whether the change was rate
limited. -/
def rateLimitGreen (cfg : StabilityConfig) (currentGreen : Option ℤ)
    (targetGreen : ℤ) : ℤ × Bool :=
  let bounded := boundGreen cfg targetGreen
  let current := currentGreen.getD bounded
  let delta := bounded - current
  if |delta| > cfg.maxGreenChangeS then
    (current + (if delta > 0 then cfg.maxGreenChangeS else -cfg.maxGreenChangeS), true)
  else (bounded, false)

/-- The body of the per-phase loop in `_optimize_junction_stable`, folded
over `enumerate(phases)`: accumulates the junction's green map, the number
of rate-limited changes, and the sink command for the currently active
phase. -/
def applyPhaseStep (cfg : StabilityConfig) (currentPhaseIdx : Option ℕ)
    (junctionId : String)
    (acc : List (ℕ × ℤ) × ℕ × List (String × ℤ)) (ip : ℕ × PhaseOut) :
    List (ℕ × ℤ) × ℕ × List (String × ℤ) :=
  let r := rateLimitGreen cfg (alLookup acc.1 ip.1) ip.2.greenS
  (alSet acc.1 ip.1 r.1,
   acc.2.1 + (if r.2 then 1 else 0),
   acc.2.2 ++ (if currentPhaseIdx = some ip.1 then [(junctionId, r.1)] else []))

/-- `StabilizedAdaptiveController._optimize_junction_stable`: EMA-smooth
the raw flows into the flow history, count spillback events (queue beyond
85% of the approach's storage length), run the Webster optimizer on the
smoothed flows, and apply the bounded, rate-limited greens; the resulting
green map becomes the stable snapshot exactly when the failure counter is
zero.  The early `return`s mirror the source: empty detector state, a
junction unknown to the geometric database (an `AttributeError` swallowed
by the cycle's `try`), a failing optimizer call, or an empty phase list. -/
def optimizeJunctionStable (cfg : StabilityConfig) (opt : WebsterOptimizer)
    (currentPhase : String → Option ℕ) (s : ControllerState)
    (j : JunctionInput) : ControllerState × List (String × ℤ) :=
  if j.approaches = [] then (s, [])
  else
    let smoothed := j.approaches.foldl
      (fun (acc : List (String × ℚ) × List (String × ℚ)) p =>
        let rawFlow := p.2.totalPcu * (3600 / cfg.updateIntervalS)
        let smoothedFlow :=
          match alLookup acc.1 p.1 with
          | some prev => cfg.smoothingAlpha * rawFlow + (1 - cfg.smoothingAlpha) * prev
          | none => rawFlow
        (alSet acc.1 p.1 smoothedFlow, acc.2 ++ [(p.1, smoothedFlow)]))
      ((alLookup s.flowHistory j.id).getD [], [])
    let s1 := { s with flowHistory := alSet s.flowHistory j.id smoothed.1 }
    match getJunction opt.geoDb j.id with
    | none => (s1, [])
    | some junctionGeom =>
      let spillCount := (j.approaches.filter (fun p =>
        match alLookup junctionGeom.approaches p.1 with
        | some a => decide (p.2.queueLengthM > a.storageLengthM * 0.85)
        | none => false)).length
      let s2 := { s1 with spillbackEvents := s1.spillbackEvents + spillCount }
      match opt.optimize j.id smoothed.2 none with
      | .error _ => (s2, [])
      | .ok timingPlan =>
        if timingPlan.phases = [] then (s2, [])
        else
          let res := timingPlan.phases.enum.foldl
            (applyPhaseStep cfg (currentPhase j.id) j.id)
            ((alLookup s2.currentGreens j.id).getD [], 0, [])
          ({ s2 with
              currentGreens := alSet s2.currentGreens j.id res.1,
              rateLimitedChanges := s2.rateLimitedChanges + res.2.1,
              stableTimings :=
                if s2.failureCount = 0 then alSet s2.stableTimings j.id res.1
                else s2.stableTimings,
              optimizationCount := s2.optimizationCount + 1 }, res.2.2)

/-- The per-junction step of `_run_optimization_cycle`'s loop (the `try`
around it catches any error; the modelled operation is total). -/
def cycleStep (cfg : StabilityConfig) (opt : WebsterOptimizer)
    (currentPhase : String → Option ℕ)
    (acc : ControllerState × List (String × ℤ)) (j : JunctionInput) :
    ControllerState × List (String × ℤ) :=
  let o := optimizeJunctionStable cfg opt currentPhase acc.1 j
  (o.1, acc.2 ++ o.2)

/-- `StabilizedAdaptiveController._run_optimization_cycle`: decide
revert-vs-optimize from the current average delay; on revert, reapply the
stable snapshot and return (the performance history is not appended on this
path); otherwise optimize every configured junction and append the current
delay to the performance history, keeping at most 5 entries. -/
def runOptimizationCycle (cfg : StabilityConfig) (opt : WebsterOptimizer)
    (currentPhase : String → Option ℕ) (s : ControllerState)
    (currentDelay : ℚ) (junctions : List JunctionInput) :
    ControllerState × List (String × ℤ) :=
  let r := shouldRevert cfg s currentDelay
  if r.1 then revertToStable r.2 currentPhase
  else
    let folded := junctions.foldl (cycleStep cfg opt currentPhase)
      (r.2, ([] : List (String × ℤ)))
    let hist := folded.1.perfHistory ++ [currentDelay]
    ({ folded.1 with perfHistory := if 5 < hist.length then hist.tail else hist },
     folded.2)

/-! ## Sample data used by the concrete witnesses -/

/-- A concrete approach record (2 lanes, 3.5 m lanes, 12 m radius, 100 m
storage) with a round saturation flow, used as witness input data. -/
def sampleApproach : ApproachGeometry :=
  { direction := "north", lanes := 2, widthM := 3.5, turnRadiusM := 12,
    storageLengthM := 100, heavyVehiclePct := 0.15,
    fw := 0.96, fHV := 0.8, fT := 0.92, saturationFlow := 3200 }

/-- A concrete one-approach junction. -/
def sampleJunction : Junction :=
  { id := "J1", name := "Sample Junction", lat := 22.3, lon := 73.2,
    approaches := [("north", sampleApproach)], currentCycleLength := 120 }

/-- A concrete database holding just `sampleJunction` under the default
context. -/
def sampleDb : GeometricDatabase :=
  { junctions := [("J1", sampleJunction)], context := {} }

/-- A concrete optimizer over `sampleDb` with the default constraints. -/
def sampleOptimizer : WebsterOptimizer := { geoDb := sampleDb }

/-- A concrete phase configuration used by witnesses. -/
def samplePhaseConfig : PhaseConfig :=
  { name := "NS", approaches := ["north"], minGreenS := 15, maxGreenS := 60 }

/-- A concrete spillback detector over `sampleDb` with default thresholds
0.70 / 0.85. -/
def sampleDetector : SpillbackDetector := { geoDb := sampleDb }

/-- A concrete controller state used by the controller witnesses: one
stable snapshot, one recorded delay, failure counter one short of the
default window. -/
def sampleControllerState : ControllerState :=
  { stableTimings := [("J1", [(0, 20)])], perfHistory := [10], failureCount := 2 }

/-- A concrete current-phase reading: every junction is in phase 0. -/
def samplePhaseFn : String → Option ℕ := fun _ => some 0

/-- A concrete optimizer-output phase used by the rate-limiting witnesses. -/
def samplePhaseOut : PhaseOut :=
  { name := "NS", greenS := 40, yellowS := 3, redS := 17, flowRatioVal := 0 }

/-! ## Helper lemmas -/

lemma le_pyRound {a : ℤ} {q : ℚ} (h : (a : ℚ) ≤ q) : a ≤ pyRound q := by
  have hf : a ≤ ⌊q⌋ := Int.le_floor.mpr h
  unfold pyRound
  split_ifs <;> omega

lemma pyRound_le {b : ℤ} {q : ℚ} (h : q ≤ (b : ℚ)) : pyRound q ≤ b := by
  have hf : ⌊q⌋ ≤ b := by
    have := Int.floor_le_floor h
    simpa using this
  unfold pyRound
  split_ifs with h1 h2 h3
  · exact hf
  · -- here q - ⌊q⌋ > 1/2, so ⌊q⌋ < b and ⌊q⌋ + 1 ≤ b
    have hq : (⌊q⌋ : ℚ) + 1/2 < q := by linarith
    have hlt : (⌊q⌋ : ℚ) < (b : ℚ) := by linarith
    have : ⌊q⌋ < b := by exact_mod_cast hlt
    omega
  · exact hf
  · have hq : (⌊q⌋ : ℚ) + 1/2 ≤ q := by linarith
    have hlt : (⌊q⌋ : ℚ) < (b : ℚ) := by linarith
    have : ⌊q⌋ < b := by exact_mod_cast hlt
    omega

lemma storageCapacity_pos (db : GeometricDatabase) (junctionId direction : String) :
    0 < getStorageCapacity db junctionId direction := by
  unfold getStorageCapacity
  split
  · norm_num
  · exact lt_of_lt_of_le zero_lt_one (le_max_right _ _)

lemma alLookup_alSet {α β : Type} [DecidableEq α] (l : List (α × β)) (k : α) (v : β) :
    alLookup (alSet l k v) k = some v := by
  induction l with
  | nil => simp [alSet, alLookup]
  | cons p rest ih =>
    by_cases h : p.1 = k
    · simp [alSet, h, alLookup]
    · simp [alSet, h, alLookup, ih]

lemma optimizeJunctionStable_failureCount (cfg : StabilityConfig)
    (opt : WebsterOptimizer) (currentPhase : String → Option ℕ)
    (s : ControllerState) (j : JunctionInput) :
    ((optimizeJunctionStable cfg opt currentPhase s j).1).failureCount = s.failureCount := by
  simp only [optimizeJunctionStable]
  repeat' split
  all_goals rfl

lemma cycleFold_failureCount (cfg : StabilityConfig) (opt : WebsterOptimizer)
    (currentPhase : String → Option ℕ) :
    ∀ (jins : List JunctionInput) (acc : ControllerState × List (String × ℤ)),
      ((jins.foldl (cycleStep cfg opt currentPhase) acc).1).failureCount =
        (acc.1).failureCount := by
  intro jins
  induction jins with
  | nil => intro acc; rfl
  | cons j rest ih =>
    intro acc
    rw [List.foldl_cons, ih]
    exact optimizeJunctionStable_failureCount cfg opt currentPhase acc.1 j

lemma runCycle_failureCount_of_not_revert (cfg : StabilityConfig)
    (opt : WebsterOptimizer) (currentPhase : String → Option ℕ)
    (s : ControllerState) (currentDelay : ℚ) (junctions : List JunctionInput)
    (hsr : (shouldRevert cfg s currentDelay).1 = false) :
    (runOptimizationCycle cfg opt currentPhase s currentDelay junctions).1.failureCount =
      ((shouldRevert cfg s currentDelay).2).failureCount := by
  unfold runOptimizationCycle
  dsimp only
  rw [hsr]
  exact cycleFold_failureCount cfg opt currentPhase junctions
    ((shouldRevert cfg s currentDelay).2, [])

/-! ## Claims C7, C8, C9 -/

/-- C8: for every junction id and direction, `get_approach_saturation_flow`
never fails: it returns the approach's derived saturation flow when the
junction and direction are known, and the base default saturation flow
(module constant 1900) when the junction or direction is unknown.  The
function is total by construction; the two conjuncts settle its value on
the known and unknown cases. -/
theorem getApproachSaturationFlow_total :
    (∀ (db : GeometricDatabase) (junctionId direction : String) (a : ApproachGeometry),
      lookupApproach db junctionId direction = some a →
      getApproachSaturationFlow db junctionId direction = a.saturationFlow) ∧
    (∀ (db : GeometricDatabase) (junctionId direction : String),
      lookupApproach db junctionId direction = none →
      getApproachSaturationFlow db junctionId direction = BASE_SATURATION_FLOW) := by
  constructor
  · intro db junctionId direction a h
    unfold getApproachSaturationFlow
    rw [h]
  · intro db junctionId direction h
    unfold getApproachSaturationFlow
    rw [h]

/-- Witness for C8 on concrete data: `"J1"/"north"` is known with derived
flow 3200, `"J1"/"east"` is unknown and falls back to 1900. -/
theorem getApproachSaturationFlow_total_witness :
    getApproachSaturationFlow sampleDb "J1" "north" = sampleApproach.saturationFlow ∧
    getApproachSaturationFlow sampleDb "J1" "east" = BASE_SATURATION_FLOW :=
  ⟨getApproachSaturationFlow_total.1 sampleDb "J1" "north" sampleApproach rfl,
   getApproachSaturationFlow_total.2 sampleDb "J1" "east" rfl⟩

/-- C9: storage capacity is always a positive integer; for a known approach
it equals the toward-zero-truncated quotient
`(storageLength * lanes) / (avgVehicleLength + avgGap)` clamped to a minimum
of 1, and for an unknown junction or direction it is the fixed default 20.
The positivity hypothesis on the configured average lengths in the third
conjunct mirrors the domain on which the Python division does not raise
`ZeroDivisionError`. -/
theorem getStorageCapacity_pos_and_value :
    (∀ (db : GeometricDatabase) (junctionId direction : String),
      0 < getStorageCapacity db junctionId direction) ∧
    (∀ (db : GeometricDatabase) (junctionId direction : String),
      lookupApproach db junctionId direction = none →
      getStorageCapacity db junctionId direction = 20) ∧
    (∀ (db : GeometricDatabase) (junctionId direction : String) (a : ApproachGeometry),
      lookupApproach db junctionId direction = some a →
      0 < db.context.avgVehicleLengthM + db.context.avgGapM →
      getStorageCapacity db junctionId direction =
        max (pyInt ((a.storageLengthM * a.lanes) /
          (db.context.avgVehicleLengthM + db.context.avgGapM))) 1) := by
  refine ⟨storageCapacity_pos, ?_, ?_⟩
  · intro db junctionId direction h
    unfold getStorageCapacity
    rw [h]
  · intro db junctionId direction a h _
    unfold getStorageCapacity
    rw [h]

/-- Witness for C9 on concrete data: positivity at a known approach, the
default 20 at an unknown one, and the truncated-quotient value at the known
one (`⌊200/7⌋ = 28`). -/
theorem getStorageCapacity_pos_and_value_witness :
    0 < getStorageCapacity sampleDb "J1" "north" ∧
    getStorageCapacity sampleDb "J1" "east" = 20 ∧
    getStorageCapacity sampleDb "J1" "north" =
      max (pyInt ((sampleApproach.storageLengthM * sampleApproach.lanes) /
        (sampleDb.context.avgVehicleLengthM + sampleDb.context.avgGapM))) 1 :=
  ⟨getStorageCapacity_pos_and_value.1 sampleDb "J1" "north",
   getStorageCapacity_pos_and_value.2.1 sampleDb "J1" "east" rfl,
   getStorageCapacity_pos_and_value.2.2 sampleDb "J1" "north" sampleApproach rfl
     (by norm_num [sampleDb, Context.avgVehicleLengthM, Context.avgGapM])⟩

/-- C7: at load time a missing or unparsable junction configuration file
makes `GeometricDatabase.__init__` fail with an error propagated to the
caller, for any state of the context file; a missing or invalid context
configuration file never aborts: initialization succeeds (given a readable
junction file) with the documented default context whose base saturation
flow is 1900.  (The printed warning on the fallback path is elided.) -/
theorem config_load_error_propagation :
    (∀ contextFile : FileLoad Context,
      (∃ e, GeometricDatabase.init .notFound contextFile = .error e) ∧
      (∃ e, GeometricDatabase.init .parseError contextFile = .error e)) ∧
    (∀ (contextFile : FileLoad Context) (data : JunctionConfig),
      (contextFile = FileLoad.notFound ∨ contextFile = FileLoad.parseError) →
      ∃ db, GeometricDatabase.init (.ok data) contextFile = .ok db ∧
        db.context = defaultContext ∧ db.context.baseSaturationFlow = 1900) := by
  constructor
  · intro contextFile
    exact ⟨⟨_, rfl⟩, ⟨_, rfl⟩⟩
  · intro contextFile data h
    rcases h with h | h <;> subst h
    · exact ⟨_, rfl, rfl, rfl⟩
    · exact ⟨_, rfl, rfl, rfl⟩

/-- Witness for C7: with an empty (but readable) junction config and a
missing context file, initialization succeeds with the default context. -/
theorem config_load_error_propagation_witness :
    ∃ db, GeometricDatabase.init (.ok ⟨[]⟩) .notFound = .ok db ∧
      db.context = defaultContext ∧ db.context.baseSaturationFlow = 1900 :=
  config_load_error_propagation.2 FileLoad.notFound ⟨[]⟩ (Or.inl rfl)

/-! ## Claims C1, C2, C3 -/

/-- C1: for every junction known to the optimizer and every flow map
(including all-zero and extreme flows) and any phase configuration,
`optimize` succeeds and the cycle length of the returned `SignalTiming` is
an integer (by type) within `[minCycle, maxCycle]` whenever those bounds
are consistently ordered (defaults 30 and 120). -/
theorem optimize_cycle_within_bounds (opt : WebsterOptimizer) (junctionId : String)
    (liveFlows : List (String × ℚ)) (phaseConfig : Option (List PhaseConfig))
    (junction : Junction)
    (hj : getJunction opt.geoDb junctionId = some junction)
    (hb : opt.minCycle ≤ opt.maxCycle) :
    ∃ timing, opt.optimize junctionId liveFlows phaseConfig = .ok timing ∧
      opt.minCycle ≤ timing.cycleLength ∧ timing.cycleLength ≤ opt.maxCycle := by
  have hbq : (opt.minCycle : ℚ) ≤ (opt.maxCycle : ℚ) := by exact_mod_cast hb
  unfold WebsterOptimizer.optimize
  rw [hj]
  exact ⟨_, rfl, le_pyRound (le_max_left _ _), pyRound_le (max_le hbq (min_le_left _ _))⟩

/-- Witness for C1: the sample junction with an extreme flow of 5000 PCU/hr
gets a cycle length within the default bounds 30–120. -/
theorem optimize_cycle_within_bounds_witness :
    ∃ timing, sampleOptimizer.optimize "J1" [("north", 5000)] none = .ok timing ∧
      sampleOptimizer.minCycle ≤ timing.cycleLength ∧
      timing.cycleLength ≤ sampleOptimizer.maxCycle :=
  optimize_cycle_within_bounds sampleOptimizer "J1" [("north", 5000)] none
    sampleJunction rfl (by decide)

/-- C2: every phase in the `SignalTiming` returned by `optimize` has red
time at least the minimum safe red time `MIN_RED_TIME = 5` (first
conjunct); and whenever the proportionally distributed, bound-clamped green
would leave red below that minimum, the green is reduced so that red equals
the minimum exactly (second conjunct, stated on the per-phase builder
`buildPhase` that `optimize` maps over its phases). -/
theorem optimize_red_time_safe :
    (∀ (opt : WebsterOptimizer) (junctionId : String) (liveFlows : List (String × ℚ))
       (phaseConfig : Option (List PhaseConfig)) (junction : Junction),
      getJunction opt.geoDb junctionId = some junction →
      ∃ timing, opt.optimize junctionId liveFlows phaseConfig = .ok timing ∧
        ∀ ph ∈ timing.phases, MIN_RED_TIME ≤ ph.redS) ∧
    (∀ (opt : WebsterOptimizer) (cOpt lostTime : ℤ) (phaseCount : ℕ) (capY y : ℚ)
       (pc : PhaseConfig),
      cOpt - clampedGreen pc (proportionalGreen cOpt lostTime phaseCount capY y)
          - opt.yellowTime < MIN_RED_TIME →
      (buildPhase opt cOpt lostTime phaseCount capY pc y).redS = MIN_RED_TIME ∧
      (buildPhase opt cOpt lostTime phaseCount capY pc y).greenS =
        max 0 (cOpt - MIN_RED_TIME - opt.yellowTime) ∧
      cOpt - MIN_RED_TIME - opt.yellowTime <
        clampedGreen pc (proportionalGreen cOpt lostTime phaseCount capY y)) := by
  constructor
  · intro opt junctionId liveFlows phaseConfig junction hj
    unfold WebsterOptimizer.optimize
    rw [hj]
    refine ⟨_, rfl, ?_⟩
    intro ph hph
    rw [List.mem_map] at hph
    obtain ⟨p, -, rfl⟩ := hph
    simp only [buildPhase]
    exact le_max_left _ _
  · intro opt cOpt lostTime phaseCount capY y pc h
    refine ⟨?_, ?_, by omega⟩
    · simp only [buildPhase]
      rw [if_pos h]
      exact max_self _
    · simp only [buildPhase]
      rw [if_pos h]

/-- Witness for C2: all phases of a concrete optimization have safe red
times, and at concrete numbers (cycle 20, clamped green 15, yellow 3) the
safety adjustment reduces green from 15 to 12 and sets red to exactly 5. -/
theorem optimize_red_time_safe_witness :
    (∃ timing, sampleOptimizer.optimize "J1" [] none = .ok timing ∧
       ∀ ph ∈ timing.phases, MIN_RED_TIME ≤ ph.redS) ∧
    (buildPhase sampleOptimizer 20 8 2 (1/2) samplePhaseConfig (1/2)).redS = MIN_RED_TIME ∧
    (buildPhase sampleOptimizer 20 8 2 (1/2) samplePhaseConfig (1/2)).greenS =
      max 0 (20 - MIN_RED_TIME - sampleOptimizer.yellowTime) ∧
    20 - MIN_RED_TIME - sampleOptimizer.yellowTime <
      clampedGreen samplePhaseConfig (proportionalGreen 20 8 2 (1/2) (1/2)) := by
  refine ⟨optimize_red_time_safe.1 sampleOptimizer "J1" [] none sampleJunction rfl, ?_⟩
  exact optimize_red_time_safe.2 sampleOptimizer 20 8 2 (1/2) (1/2) samplePhaseConfig
    (by norm_num [clampedGreen, proportionalGreen, pyRound, MIN_RED_TIME, sampleOptimizer,
          samplePhaseConfig])

/-- C3: whenever the raw sum of critical flow ratios `Y` computed from the
inputs is at least 0.90 the returned `SignalTiming` has
`isOversaturated = true`; whenever `Y ≥ 1.0` the value of `Y` actually used
(and stored in `sumFlowRatios`) is 0.95 and the cycle length is computed
from the formula with 0.95 substituted, so it stays finite and within the
configured bounds. -/
theorem optimize_oversaturation_cap (opt : WebsterOptimizer) (junctionId : String)
    (liveFlows : List (String × ℚ)) (phaseConfig : Option (List PhaseConfig))
    (junction : Junction)
    (hj : getJunction opt.geoDb junctionId = some junction)
    (hb : opt.minCycle ≤ opt.maxCycle) :
    ∃ timing, opt.optimize junctionId liveFlows phaseConfig = .ok timing ∧
      (rawSumFlowRatios opt junctionId liveFlows phaseConfig junction ≥ 0.90 →
        timing.isOversaturated = true) ∧
      (rawSumFlowRatios opt junctionId liveFlows phaseConfig junction ≥ 1 →
        timing.sumFlowRatios = 0.95 ∧
        timing.cycleLength = pyRound (max (opt.minCycle : ℚ) (min (opt.maxCycle : ℚ)
          ((1.5 * ((((phaseConfig.getD (defaultPhaseConfig junction)).length : ℤ) *
              opt.lostTimePerPhase : ℤ) : ℚ) + 5) / (1 - 0.95))))) ∧
      opt.minCycle ≤ timing.cycleLength ∧ timing.cycleLength ≤ opt.maxCycle := by
  have hbq : (opt.minCycle : ℚ) ≤ (opt.maxCycle : ℚ) := by exact_mod_cast hb
  unfold WebsterOptimizer.optimize
  rw [hj]
  refine ⟨_, rfl, ?_, ?_, le_pyRound (le_max_left _ _),
    pyRound_le (max_le hbq (min_le_left _ _))⟩
  · intro h
    unfold rawSumFlowRatios at h
    exact decide_eq_true h
  · intro h
    unfold rawSumFlowRatios at h
    constructor
    · show (if _ ≥ (1 : ℚ) then (0.95 : ℚ) else _) = 0.95
      rw [if_pos h]
    · show pyRound _ = pyRound _
      rw [if_pos h]

/-- Witness for C3: with flow 5000 PCU/hr on a 3200 PCU/hr approach the raw
`Y` is 25/16 ≥ 1, and the theorem's conclusions hold at that input. -/
theorem optimize_oversaturation_cap_witness :
    rawSumFlowRatios sampleOptimizer "J1" [("north", 5000)] none sampleJunction ≥ 1 ∧
    (∃ timing, sampleOptimizer.optimize "J1" [("north", 5000)] none = .ok timing ∧
      (rawSumFlowRatios sampleOptimizer "J1" [("north", 5000)] none sampleJunction ≥ 0.90 →
        timing.isOversaturated = true) ∧
      (rawSumFlowRatios sampleOptimizer "J1" [("north", 5000)] none sampleJunction ≥ 1 →
        timing.sumFlowRatios = 0.95 ∧
        timing.cycleLength = pyRound (max (sampleOptimizer.minCycle : ℚ)
          (min (sampleOptimizer.maxCycle : ℚ)
          ((1.5 * (((((none : Option (List PhaseConfig)).getD
              (defaultPhaseConfig sampleJunction)).length : ℤ) *
              sampleOptimizer.lostTimePerPhase : ℤ) : ℚ) + 5) / (1 - 0.95))))) ∧
      sampleOptimizer.minCycle ≤ timing.cycleLength ∧
      timing.cycleLength ≤ sampleOptimizer.maxCycle) := by
  constructor
  · have hns : (sampleJunction.approaches.map Prod.fst).filter
        (fun d => d == "north" || d == "south") = ["north"] := by decide
    have hew : (sampleJunction.approaches.map Prod.fst).filter
        (fun d => d == "east" || d == "west") = ([] : List String) := by decide
    have hsat : getApproachSaturationFlow sampleDb "J1" "north" = 3200 := by
      norm_num [getApproachSaturationFlow, lookupApproach, getJunction, alLookup,
        sampleDb, sampleJunction, sampleApproach]
    norm_num [rawSumFlowRatios, defaultPhaseConfig, hns, hew, hsat,
      calcPhaseFlowRatio, alLookup, sampleOptimizer]
  · exact optimize_oversaturation_cap sampleOptimizer "J1" [("north", 5000)] none
      sampleJunction rfl (by decide)

/-! ## Claim C4 -/

/-- C4: every approach analyzed by the risk monitor is classified by
occupancy = queue / storageCapacity with inclusive lower bounds:
occupancy ≥ 1.0 yields SPILLBACK regardless of any inflow data (the status
does not depend on the `inflowRates` argument at all, last conjunct of the
first part), occupancy ≥ the critical threshold yields CRITICAL,
occupancy ≥ the warning threshold yields WARNING, otherwise OK — with the
chained-`if` reading under which occupancy exactly at a threshold maps to
the higher severity.  The second part lifts this to `analyze` for a known
junction: its per-approach statuses are exactly `analyzeApproach` of each
queue entry.  (Storage capacity is always positive, so the division is the
occupancy actually used.) -/
theorem analyze_risk_classification :
    (∀ (det : SpillbackDetector) (junctionId direction : String) (queue : ℤ)
       (inflowRates : Option (List (String × ℚ))),
      ((queue : ℚ) / (getStorageCapacity det.geoDb junctionId direction : ℚ) ≥ 1 →
        (analyzeApproach det junctionId inflowRates direction queue).status =
          SpillbackStatus.SPILLBACK) ∧
      ((queue : ℚ) / (getStorageCapacity det.geoDb junctionId direction : ℚ) < 1 →
       (queue : ℚ) / (getStorageCapacity det.geoDb junctionId direction : ℚ) ≥
          det.criticalThreshold →
        (analyzeApproach det junctionId inflowRates direction queue).status =
          SpillbackStatus.CRITICAL) ∧
      ((queue : ℚ) / (getStorageCapacity det.geoDb junctionId direction : ℚ) < 1 →
       (queue : ℚ) / (getStorageCapacity det.geoDb junctionId direction : ℚ) <
          det.criticalThreshold →
       (queue : ℚ) / (getStorageCapacity det.geoDb junctionId direction : ℚ) ≥
          det.warningThreshold →
        (analyzeApproach det junctionId inflowRates direction queue).status =
          SpillbackStatus.WARNING) ∧
      ((queue : ℚ) / (getStorageCapacity det.geoDb junctionId direction : ℚ) < 1 →
       (queue : ℚ) / (getStorageCapacity det.geoDb junctionId direction : ℚ) <
          det.criticalThreshold →
       (queue : ℚ) / (getStorageCapacity det.geoDb junctionId direction : ℚ) <
          det.warningThreshold →
        (analyzeApproach det junctionId inflowRates direction queue).status =
          SpillbackStatus.OK) ∧
      (∀ inflowRates2 : Option (List (String × ℚ)),
        (analyzeApproach det junctionId inflowRates2 direction queue).status =
          (analyzeApproach det junctionId inflowRates direction queue).status)) ∧
    (∀ (det : SpillbackDetector) (junctionId : String) (junction : Junction)
       (queueLengths : List (String × ℤ)) (inflowRates : Option (List (String × ℚ))),
      getJunction det.geoDb junctionId = some junction →
      ∃ st, det.analyze junctionId queueLengths inflowRates = .ok st ∧
        st.approaches = queueLengths.map
          (fun p => (p.1, analyzeApproach det junctionId inflowRates p.1 p.2))) := by
  constructor
  · intro det junctionId direction queue inflowRates
    have hcap : (0 : ℤ) < getStorageCapacity det.geoDb junctionId direction :=
      storageCapacity_pos det.geoDb junctionId direction
    refine ⟨?_, ?_, ?_, ?_, ?_⟩
    · intro h
      simp only [analyzeApproach, if_pos hcap]
      rw [if_pos h]
    · intro h1 h2
      simp only [analyzeApproach, if_pos hcap]
      rw [if_neg (not_le.mpr h1), if_pos h2]
    · intro h1 h2 h3
      simp only [analyzeApproach, if_pos hcap]
      rw [if_neg (not_le.mpr h1), if_neg (not_le.mpr h2), if_pos h3]
    · intro h1 h2 h3
      simp only [analyzeApproach, if_pos hcap]
      rw [if_neg (not_le.mpr h1), if_neg (not_le.mpr h2), if_neg (not_le.mpr h3)]
    · intro inflowRates2
      simp only [analyzeApproach]
  · intro det junctionId junction queueLengths inflowRates hj
    unfold SpillbackDetector.analyze
    rw [hj]
    exact ⟨_, rfl, rfl⟩

/-- Witness for C4 at concrete occupancies on the default-capacity (20)
approach `"east"`: queue 20 → occupancy 1.0 → SPILLBACK even with inflow
data present; queue 17 → exactly 0.85 → CRITICAL; queue 14 → exactly
0.70 → WARNING; queue 7 → 0.35 → OK; plus `analyze` producing exactly
these per-approach statuses for a known junction. -/
theorem analyze_risk_classification_witness :
    (analyzeApproach sampleDetector "J1" (some [("east", 100)]) "east" 20).status =
      SpillbackStatus.SPILLBACK ∧
    (analyzeApproach sampleDetector "J1" none "east" 17).status =
      SpillbackStatus.CRITICAL ∧
    (analyzeApproach sampleDetector "J1" none "east" 14).status =
      SpillbackStatus.WARNING ∧
    (analyzeApproach sampleDetector "J1" none "east" 7).status =
      SpillbackStatus.OK ∧
    (∃ st, sampleDetector.analyze "J1" [("east", 20)] none = .ok st ∧
      st.approaches = [("east", 20)].map
        (fun p => (p.1, analyzeApproach sampleDetector "J1" none p.1 p.2))) := by
  have hcap : getStorageCapacity sampleDetector.geoDb "J1" "east" = 20 := rfl
  refine ⟨?_, ?_, ?_, ?_,
    analyze_risk_classification.2 sampleDetector "J1" sampleJunction
      [("east", 20)] none rfl⟩
  · exact (analyze_risk_classification.1 sampleDetector "J1" "east" 20
      (some [("east", 100)])).1 (by rw [hcap]; norm_num)
  · exact (analyze_risk_classification.1 sampleDetector "J1" "east" 17 none).2.1
      (by rw [hcap]; norm_num)
      (by rw [hcap]; norm_num [sampleDetector])
  · exact (analyze_risk_classification.1 sampleDetector "J1" "east" 14 none).2.2.1
      (by rw [hcap]; norm_num)
      (by rw [hcap]; norm_num [sampleDetector])
      (by rw [hcap]; norm_num [sampleDetector])
  · exact (analyze_risk_classification.1 sampleDetector "J1" "east" 7 none).2.2.2.1
      (by rw [hcap]; norm_num)
      (by rw [hcap]; norm_num [sampleDetector])
      (by rw [hcap]; norm_num [sampleDetector])

/-! ## Claims C5, C6, C10 -/

/-- C5: in the stabilized adaptive controller, when an optimization cycle's
delay is degraded (current > previous × `performanceThreshold`) and the
failure counter thereby reaches `stabilityWindow`, the cycle reapplies the
last stable snapshot of green times (the issued sink commands are exactly
the snapshot entries for the currently active phases), increments the
reversions counter, and resets the failure counter to zero — provided a
stable snapshot exists (first part).  The snapshot is only ever written
while the failure counter is zero (second part), and as long as a snapshot
exists a failure counter below the window stays below it after any cycle,
so the system never degrades for more than `stabilityWindow` consecutive
cycles without self-correcting (third part). -/
theorem controller_reversion :
    (∀ (cfg : StabilityConfig) (opt : WebsterOptimizer)
       (currentPhase : String → Option ℕ) (s : ControllerState)
       (currentDelay prevDelay : ℚ) (junctions : List JunctionInput),
      s.stableTimings ≠ [] →
      s.perfHistory.getLast? = some prevDelay →
      currentDelay > prevDelay * cfg.performanceThreshold →
      cfg.stabilityWindow ≤ s.failureCount + 1 →
      (runOptimizationCycle cfg opt currentPhase s currentDelay junctions).1.reversions =
          s.reversions + 1 ∧
      (runOptimizationCycle cfg opt currentPhase s currentDelay junctions).1.failureCount = 0 ∧
      (runOptimizationCycle cfg opt currentPhase s currentDelay junctions).2 =
          revertCommands s.stableTimings currentPhase ∧
      (runOptimizationCycle cfg opt currentPhase s currentDelay junctions).1.stableTimings =
          s.stableTimings ∧
      (runOptimizationCycle cfg opt currentPhase s currentDelay junctions).1.currentGreens =
          s.currentGreens) ∧
    (∀ (cfg : StabilityConfig) (opt : WebsterOptimizer)
       (currentPhase : String → Option ℕ) (s : ControllerState) (j : JunctionInput),
      s.failureCount ≠ 0 →
      ((optimizeJunctionStable cfg opt currentPhase s j).1).stableTimings = s.stableTimings) ∧
    (∀ (cfg : StabilityConfig) (opt : WebsterOptimizer)
       (currentPhase : String → Option ℕ) (s : ControllerState)
       (currentDelay : ℚ) (junctions : List JunctionInput),
      0 < cfg.stabilityWindow →
      s.stableTimings ≠ [] →
      s.failureCount < cfg.stabilityWindow →
      (runOptimizationCycle cfg opt currentPhase s currentDelay junctions).1.failureCount <
        cfg.stabilityWindow) := by
  refine ⟨?_, ?_, ?_⟩
  · intro cfg opt currentPhase s d prev junctions hst hlast hdeg hwin
    have hsr : shouldRevert cfg s d =
        (true, { s with failureCount := s.failureCount + 1 }) := by
      unfold shouldRevert
      rw [hlast]
      dsimp only
      rw [if_pos hdeg, if_pos hwin]
    have hrun : runOptimizationCycle cfg opt currentPhase s d junctions =
        ({ s with failureCount := 0, reversions := s.reversions + 1 },
         revertCommands s.stableTimings currentPhase) := by
      unfold runOptimizationCycle
      rw [hsr]
      dsimp only
      unfold revertToStable
      dsimp only
      rw [if_neg hst]
      rfl
    rw [hrun]
    exact ⟨rfl, rfl, rfl, rfl, rfl⟩
  · intro cfg opt currentPhase s j h
    simp only [optimizeJunctionStable]
    repeat' split
    all_goals rfl
  · intro cfg opt currentPhase s d junctions hw0 hst hfc
    cases hlast : s.perfHistory.getLast? with
    | none =>
      have hsr : shouldRevert cfg s d = (false, s) := by
        unfold shouldRevert
        rw [hlast]
      rw [runCycle_failureCount_of_not_revert cfg opt currentPhase s d junctions
        (by rw [hsr]), hsr]
      exact hfc
    | some prev =>
      by_cases hdeg : d > prev * cfg.performanceThreshold
      · by_cases hwin : cfg.stabilityWindow ≤ s.failureCount + 1
        · have hsr : shouldRevert cfg s d =
              (true, { s with failureCount := s.failureCount + 1 }) := by
            unfold shouldRevert
            rw [hlast]
            dsimp only
            rw [if_pos hdeg, if_pos hwin]
          unfold runOptimizationCycle
          rw [hsr]
          dsimp only
          unfold revertToStable
          dsimp only
          rw [if_neg hst]
          exact hw0
        · have hsr : shouldRevert cfg s d =
              (false, { s with failureCount := s.failureCount + 1 }) := by
            unfold shouldRevert
            rw [hlast]
            dsimp only
            rw [if_pos hdeg, if_neg hwin]
          rw [runCycle_failureCount_of_not_revert cfg opt currentPhase s d junctions
            (by rw [hsr]), hsr]
          dsimp only
          omega
      · have hsr : shouldRevert cfg s d = (false, { s with failureCount := 0 }) := by
          unfold shouldRevert
          rw [hlast]
          dsimp only
          rw [if_neg hdeg]
        rw [runCycle_failureCount_of_not_revert cfg opt currentPhase s d junctions
          (by rw [hsr]), hsr]
        exact hw0

/-- Witness for C5 on a concrete state (window 3, failure counter 2, one
recorded delay 10, degraded current delay 12 > 10 × 1.1, snapshot
`[("J1", [(0, 20)])]`). -/
theorem controller_reversion_witness :
    ((runOptimizationCycle {} sampleOptimizer samplePhaseFn sampleControllerState 12 []).1.reversions =
        sampleControllerState.reversions + 1 ∧
     (runOptimizationCycle {} sampleOptimizer samplePhaseFn sampleControllerState 12 []).1.failureCount = 0 ∧
     (runOptimizationCycle {} sampleOptimizer samplePhaseFn sampleControllerState 12 []).2 =
        revertCommands sampleControllerState.stableTimings samplePhaseFn ∧
     (runOptimizationCycle {} sampleOptimizer samplePhaseFn sampleControllerState 12 []).1.stableTimings =
        sampleControllerState.stableTimings ∧
     (runOptimizationCycle {} sampleOptimizer samplePhaseFn sampleControllerState 12 []).1.currentGreens =
        sampleControllerState.currentGreens) ∧
    ((optimizeJunctionStable {} sampleOptimizer samplePhaseFn sampleControllerState
        ⟨"J1", []⟩).1).stableTimings = sampleControllerState.stableTimings ∧
    (runOptimizationCycle {} sampleOptimizer samplePhaseFn sampleControllerState 12 []).1.failureCount <
      ({} : StabilityConfig).stabilityWindow :=
  ⟨controller_reversion.1 {} sampleOptimizer samplePhaseFn sampleControllerState 12 10 []
      (by decide) rfl
      (by norm_num [show ({} : StabilityConfig).performanceThreshold = 11/10 from rfl,
            show sampleControllerState.perfHistory = [10] from rfl])
      (by decide),
   controller_reversion.2.1 {} sampleOptimizer samplePhaseFn sampleControllerState
      ⟨"J1", []⟩ (by decide),
   controller_reversion.2.2 {} sampleOptimizer samplePhaseFn sampleControllerState 12 []
      (by decide) (by decide) (by decide)⟩

/-- C6: for any phase whose candidate green (after clamping to
`[minGreenS, maxGreenS]`) differs from the tracked current green by more
than `maxGreenChangeS`, the applied green differs from the current one by
exactly `maxGreenChangeS` in the direction of the candidate, never more,
and the per-phase step increments the rate-limited-change counter
(second part). -/
theorem rate_limit_exact :
    (∀ (cfg : StabilityConfig) (currentGreen targetGreen : ℤ),
      0 ≤ cfg.maxGreenChangeS →
      |boundGreen cfg targetGreen - currentGreen| > cfg.maxGreenChangeS →
      |(rateLimitGreen cfg (some currentGreen) targetGreen).1 - currentGreen| =
          cfg.maxGreenChangeS ∧
      (boundGreen cfg targetGreen - currentGreen > 0 →
        (rateLimitGreen cfg (some currentGreen) targetGreen).1 =
          currentGreen + cfg.maxGreenChangeS) ∧
      (boundGreen cfg targetGreen - currentGreen < 0 →
        (rateLimitGreen cfg (some currentGreen) targetGreen).1 =
          currentGreen - cfg.maxGreenChangeS) ∧
      (rateLimitGreen cfg (some currentGreen) targetGreen).2 = true) ∧
    (∀ (cfg : StabilityConfig) (currentPhaseIdx : Option ℕ) (junctionId : String)
       (acc : List (ℕ × ℤ) × ℕ × List (String × ℤ)) (ip : ℕ × PhaseOut),
      (rateLimitGreen cfg (alLookup acc.1 ip.1) ip.2.greenS).2 = true →
      (applyPhaseStep cfg currentPhaseIdx junctionId acc ip).2.1 = acc.2.1 + 1) := by
  constructor
  · intro cfg c t h0 habs
    have hd : rateLimitGreen cfg (some c) t =
        (c + (if boundGreen cfg t - c > 0 then cfg.maxGreenChangeS
              else -cfg.maxGreenChangeS), true) := by
      unfold rateLimitGreen
      dsimp only [Option.getD]
      rw [if_pos habs]
    rw [hd]
    dsimp only
    refine ⟨?_, ?_, ?_, rfl⟩
    · by_cases hpos : boundGreen cfg t - c > 0
      · rw [if_pos hpos, (by ring : c + cfg.maxGreenChangeS - c = cfg.maxGreenChangeS),
          abs_of_nonneg h0]
      · rw [if_neg hpos, (by ring : c + -cfg.maxGreenChangeS - c = -cfg.maxGreenChangeS),
          abs_neg, abs_of_nonneg h0]
    · intro hpos
      rw [if_pos hpos]
    · intro hneg
      rw [if_neg (by omega : ¬(boundGreen cfg t - c > 0))]
      ring
  · intro cfg currentPhaseIdx junctionId acc ip h
    unfold applyPhaseStep
    dsimp only
    rw [h]
    rfl

/-- Witness for C6: default config (cap 10), tracked green 20, candidate 40
(clamped 40): the applied green is exactly 30 (= 20 + 10), the change is
flagged, and the per-phase step increments the counter from 0 to 1. -/
theorem rate_limit_exact_witness :
    (|(rateLimitGreen {} (some 20) 40).1 - 20| = ({} : StabilityConfig).maxGreenChangeS ∧
     (boundGreen {} 40 - 20 > 0 →
       (rateLimitGreen {} (some 20) 40).1 = 20 + ({} : StabilityConfig).maxGreenChangeS) ∧
     (boundGreen {} 40 - 20 < 0 →
       (rateLimitGreen {} (some 20) 40).1 = 20 - ({} : StabilityConfig).maxGreenChangeS) ∧
     (rateLimitGreen {} (some 20) 40).2 = true) ∧
    (applyPhaseStep {} (some 0) "J1" ([(0, 20)], 0, []) (0, samplePhaseOut)).2.1 = 0 + 1 :=
  ⟨rate_limit_exact.1 {} 20 40 (by decide) (by decide),
   rate_limit_exact.2 {} (some 0) "J1" ([(0, 20)], 0, []) (0, samplePhaseOut) (by decide)⟩

/-- C10: the first candidate green ever computed for a junction phase is
applied without rate limiting: with no tracked current green the
`dict.get` default makes the delta zero, so the bounds-clamped candidate is
applied verbatim and the rate-limited flag stays false (first part); in the
per-phase step this leaves the counter unchanged and records the clamped
candidate as the new tracked green (second part); from the second
optimization of the phase onward (a tracked green exists) the applied
change is bounded by `maxGreenChangeS` (third part). -/
theorem first_candidate_unlimited :
    (∀ (cfg : StabilityConfig) (targetGreen : ℤ),
      0 ≤ cfg.maxGreenChangeS →
      rateLimitGreen cfg none targetGreen = (boundGreen cfg targetGreen, false)) ∧
    (∀ (cfg : StabilityConfig) (currentPhaseIdx : Option ℕ) (junctionId : String)
       (acc : List (ℕ × ℤ) × ℕ × List (String × ℤ)) (ip : ℕ × PhaseOut),
      0 ≤ cfg.maxGreenChangeS →
      alLookup acc.1 ip.1 = none →
      (applyPhaseStep cfg currentPhaseIdx junctionId acc ip).2.1 = acc.2.1 ∧
      alLookup (applyPhaseStep cfg currentPhaseIdx junctionId acc ip).1 ip.1 =
        some (boundGreen cfg ip.2.greenS)) ∧
    (∀ (cfg : StabilityConfig) (currentGreen targetGreen : ℤ),
      0 ≤ cfg.maxGreenChangeS →
      |(rateLimitGreen cfg (some currentGreen) targetGreen).1 - currentGreen| ≤
        cfg.maxGreenChangeS) := by
  have key : ∀ (cfg : StabilityConfig) (t : ℤ), 0 ≤ cfg.maxGreenChangeS →
      rateLimitGreen cfg none t = (boundGreen cfg t, false) := by
    intro cfg t h0
    unfold rateLimitGreen
    dsimp only [Option.getD]
    rw [if_neg]
    simp only [sub_self, abs_zero]
    omega
  refine ⟨key, ?_, ?_⟩
  · intro cfg currentPhaseIdx junctionId acc ip h0 hnone
    constructor
    · unfold applyPhaseStep
      dsimp only
      rw [hnone, key cfg ip.2.greenS h0]
      simp
    · unfold applyPhaseStep
      dsimp only
      rw [hnone, key cfg ip.2.greenS h0]
      exact alLookup_alSet acc.1 ip.1 _
  · intro cfg c t h0
    unfold rateLimitGreen
    dsimp only [Option.getD]
    by_cases habs : |boundGreen cfg t - c| > cfg.maxGreenChangeS
    · rw [if_pos habs]
      dsimp only
      by_cases hpos : boundGreen cfg t - c > 0
      · rw [if_pos hpos, (by ring : c + cfg.maxGreenChangeS - c = cfg.maxGreenChangeS),
          abs_of_nonneg h0]
      · rw [if_neg hpos, (by ring : c + -cfg.maxGreenChangeS - c = -cfg.maxGreenChangeS),
          abs_neg, abs_of_nonneg h0]
    · rw [if_neg habs]
      dsimp only
      exact not_lt.mp habs

/-- Witness for C10: with no tracked green, candidate 100 is clamped to 60
and applied unflagged; the step at an empty green map leaves the counter at
0 and records the clamped candidate 40; with tracked green 20 and candidate
40 the applied change stays within the cap 10. -/
theorem first_candidate_unlimited_witness :
    rateLimitGreen {} none 100 = (boundGreen {} 100, false) ∧
    ((applyPhaseStep {} (some 0) "J1" ([], 0, []) (0, samplePhaseOut)).2.1 = 0 ∧
     alLookup (applyPhaseStep {} (some 0) "J1" ([], 0, []) (0, samplePhaseOut)).1 0 =
       some (boundGreen {} samplePhaseOut.greenS)) ∧
    |(rateLimitGreen {} (some 20) 40).1 - 20| ≤ ({} : StabilityConfig).maxGreenChangeS :=
  ⟨first_candidate_unlimited.1 {} 100 (by decide),
   first_candidate_unlimited.2.1 {} (some 0) "J1" ([], 0, []) (0, samplePhaseOut)
     (by decide) rfl,
   first_candidate_unlimited.2.2 {} 20 40 (by decide)⟩

end TM
